import Mathlib

/-!
Verification of the White Cross orchestration engine (`src/mi4`): a shallow
embedding of the task queue, coordinator, scheduler, circuit breaker, rate
limiter and process pool, with theorems settling the specification's claims.

Timestamps (`datetime` / `time.time()` values) are modelled as rationals
measured in seconds; `deque`s become lists (append at the back, pop at the
front); dictionaries become association lists.
-/

namespace WhiteCross

/-- `TaskStatus` from `task_management.py`. -/
inductive TaskStatus where
  | pending
  | running
  | completed
  | failed
  | cancelled
  | timeout
deriving DecidableEq, Repr

/-- `TaskPriority` from `task_management.py`. -/
inductive TaskPriority where
  | low
  | normal
  | high
  | critical
deriving DecidableEq, Repr

/-- `TaskPriority.value` (LOW = 1 … CRITICAL = 4). -/
def TaskPriority.value : TaskPriority → ℤ
  | .low => 1
  | .normal => 2
  | .high => 3
  | .critical => 4

/-- Python's `reversed(list(TaskPriority))`: the scan order of
`get_next_task`, highest priority first. -/
def prioritiesHighToLow : List TaskPriority :=
  [.critical, .high, .normal, .low]

/-- `TaskDependency` dataclass. -/
structure TaskDependency where
  task_id : String
  dependency_type : String := "completion"
  required : Bool := true
deriving DecidableEq, Repr

/-- The `Task` dataclass (the fields the queue logic reads). -/
structure Task where
  id : String
  title : String := ""
  description : String := ""
  agent_id : String := ""
  priority : TaskPriority := .normal
  status : TaskStatus := .pending
  dependencies : List TaskDependency := []
  created_at : ℚ := 0
  started_at : Option ℚ := none
  completed_at : Option ℚ := none
  timeout_seconds : Option ℤ := none
  retry_count : ℤ := 0
  max_retries : ℤ := 3
deriving DecidableEq, Repr

/-- `Task.is_completed`: membership in the terminal statuses. -/
def Task.is_completed (t : Task) : Bool :=
  t.status = TaskStatus.completed ∨ t.status = TaskStatus.failed ∨
    t.status = TaskStatus.cancelled ∨ t.status = TaskStatus.timeout

/-- `Task.can_start(completed_tasks)`: every dependency's `task_id` is in the
completed-task index.  (The source inspects neither `required` nor
`dependency_type`.) -/
def Task.can_start (t : Task) (completed_tasks : List String) : Bool :=
  t.dependencies.all fun dep => completed_tasks.contains dep.task_id

/-- `TaskResult` dataclass. -/
structure TaskResult where
  task_id : String
  success : Bool
  error : Option String := none
deriving DecidableEq, Repr

/-! ## TaskQueue (`task_management.py`) -/

/-- Insert-or-update into an insertion-ordered dictionary (Python `d[k] = v`). -/
def dictSet {α : Type} (l : List (String × α)) (k : String) (v : α) :
    List (String × α) :=
  if l.any fun p => p.1 = k then
    l.map fun p => if p.1 = k then (k, v) else p
  else
    l ++ [(k, v)]

/-- Dictionary lookup (Python `d.get(k)` / `d[k]`). -/
def dictGet {α : Type} (l : List (String × α)) (k : String) : Option α :=
  (l.find? fun p => p.1 = k).map fun p => p.2

/-- Python `set.add`: insert if absent. -/
def setInsert (l : List String) (x : String) : List String :=
  if l.contains x then l else l ++ [x]

/-- Python `set.discard`: remove every occurrence. -/
def setDiscard (l : List String) (x : String) : List String :=
  l.filter fun y => y ≠ x

/-- The mutable state of `TaskQueue`: the task dictionary, one pending deque
per priority, the running set and the completed-task index. -/
structure TaskQueue where
  tasks : List (String × Task) := []
  pending_low : List String := []
  pending_normal : List String := []
  pending_high : List String := []
  pending_critical : List String := []
  running_tasks : List String := []
  completed_tasks : List (String × TaskResult) := []
deriving DecidableEq, Repr

/-- `self.pending_tasks[priority]`. -/
def TaskQueue.pending (q : TaskQueue) : TaskPriority → List String
  | .low => q.pending_low
  | .normal => q.pending_normal
  | .high => q.pending_high
  | .critical => q.pending_critical

/-- Replace the deque of one priority. -/
def TaskQueue.setPending (q : TaskQueue) (p : TaskPriority) (l : List String) :
    TaskQueue :=
  match p with
  | .low => { q with pending_low := l }
  | .normal => { q with pending_normal := l }
  | .high => { q with pending_high := l }
  | .critical => { q with pending_critical := l }

/-- `set(self.completed_tasks.keys())`. -/
def TaskQueue.completedIds (q : TaskQueue) : List String :=
  q.completed_tasks.map fun p => p.1

/-- `TaskQueue.add_task`: store the task and, when PENDING, append its id to
its priority's deque. -/
def TaskQueue.add_task (q : TaskQueue) (task : Task) : TaskQueue :=
  let q1 := { q with tasks := dictSet q.tasks task.id task }
  if task.status = TaskStatus.pending then
    q1.setPending task.priority (q1.pending task.priority ++ [task.id])
  else
    q1

/-- `TaskQueue._calculate_task_score` at time `now`:
`priority.value*100 + age_hours*10 + (max_retries - retry_count)*5 +
(20 if timeout_seconds else 0) - len(dependencies)*3`.  (`timeout_seconds`
is tested for Python truthiness, so a `0` timeout earns no bonus.) -/
def TaskQueue.calculate_task_score (now : ℚ) (t : Task) : ℚ :=
  (t.priority.value : ℚ) * 100
    + ((now - t.created_at) / 3600) * 10
    + ((t.max_retries - t.retry_count : ℤ) : ℚ) * 5
    + (match t.timeout_seconds with
        | some n => if n ≠ 0 then (20 : ℚ) else 0
        | none => 0)
    - (t.dependencies.length : ℚ) * 3

/-- The tasks visited by `get_next_task`'s scan, in scan order: priorities
from CRITICAL down to LOW, each deque front to back, skipping ids in the
running set and tasks whose dependencies are not all in the completed index.
(Stale and duplicate deque entries are visited like any other: the scan never
pops.) -/
def TaskQueue.scanCandidates (q : TaskQueue) : List Task :=
  prioritiesHighToLow.flatMap fun priority =>
    (q.pending priority).filterMap fun task_id =>
      match dictGet q.tasks task_id with
      | none => none
      | some task =>
        if q.running_tasks.contains task_id then none
        else if task.can_start q.completedIds then some task
        else none

/-- The scan's accumulator loop: start from `(best_task, best_score)` and
replace the pair whenever a candidate's score is strictly greater. -/
def selectLoop (now : ℚ) (cands : List Task) (acc : Option Task × ℚ) :
    Option Task × ℚ :=
  cands.foldl
    (fun acc t =>
      if TaskQueue.calculate_task_score now t > acc.2 then
        (some t, TaskQueue.calculate_task_score now t)
      else acc)
    acc

/-- `TaskQueue.get_next_task` at time `now`: run the scan starting from
`best_task = None, best_score = -1`; if a task was chosen, add it to the
running set, set its status to RUNNING and stamp `started_at := now`
(the deque entry is not removed).  Returns the chosen task (as returned to
the caller) and the updated queue. -/
def TaskQueue.get_next_task (q : TaskQueue) (now : ℚ) :
    Option Task × TaskQueue :=
  match selectLoop now q.scanCandidates (none, -1) with
  | (some best, _) =>
    let best' := { best with status := TaskStatus.running,
                             started_at := some now }
    (some best',
      { q with running_tasks := setInsert q.running_tasks best.id,
               tasks := dictSet q.tasks best.id best' })
  | (none, _) => (none, q)

/-- `TaskQueue.complete_task`: set COMPLETED or FAILED from the result's
success flag, stamp `completed_at`, drop from the running set and record the
result in the completed index. -/
def TaskQueue.complete_task (q : TaskQueue) (task_id : String)
    (result : TaskResult) (now : ℚ) : TaskQueue :=
  match dictGet q.tasks task_id with
  | none => q
  | some task =>
    let task' := { task with
      status := if result.success then TaskStatus.completed else TaskStatus.failed,
      completed_at := some now }
    { q with tasks := dictSet q.tasks task_id task',
             running_tasks := setDiscard q.running_tasks task_id,
             completed_tasks := dictSet q.completed_tasks task_id result }

/-- `TaskQueue.fail_task`: while `retry_count < max_retries`, increment
`retry_count`, set PENDING and append the id to its priority deque again;
otherwise set FAILED, stamp `completed_at` and record a synthetic failed
result in the completed index. -/
def TaskQueue.fail_task (q : TaskQueue) (task_id : String) (error : String)
    (now : ℚ) : TaskQueue :=
  match dictGet q.tasks task_id with
  | none => q
  | some task =>
    if task.retry_count < task.max_retries then
      let task' := { task with retry_count := task.retry_count + 1,
                               status := TaskStatus.pending }
      let q1 := { q with tasks := dictSet q.tasks task_id task',
                         running_tasks := setDiscard q.running_tasks task_id }
      q1.setPending task.priority (q1.pending task.priority ++ [task_id])
    else
      let task' := { task with status := TaskStatus.failed,
                               completed_at := some now }
      { q with tasks := dictSet q.tasks task_id task',
               running_tasks := setDiscard q.running_tasks task_id,
               completed_tasks := dictSet q.completed_tasks task_id
                 ⟨task_id, false, some error⟩ }

/-- `TaskQueue.cancel_task`: set CANCELLED, stamp `completed_at`, drop from
the running set.  (No deque entry is removed and nothing is recorded in the
completed index.) -/
def TaskQueue.cancel_task (q : TaskQueue) (task_id : String) (now : ℚ) :
    TaskQueue :=
  match dictGet q.tasks task_id with
  | none => q
  | some task =>
    let task' := { task with status := TaskStatus.cancelled,
                             completed_at := some now }
    { q with tasks := dictSet q.tasks task_id task',
             running_tasks := setDiscard q.running_tasks task_id }

/-! ## TaskCoordinator._execute_task (`task_management.py`) -/

/-- The outcome of invoking a registered handler on a task: it returns a
result, raises an exception, or (when a timeout is configured) the awaited
call times out. -/
inductive HandlerOutcome where
  | success (result : TaskResult)
  | raised (msg : String)
  | timedOut
deriving DecidableEq, Repr

/-- `TaskCoordinator._execute_task`, with the handler registry abstracted to
the list of registered agent ids and the handler invocation abstracted to a
`HandlerOutcome`.  No registered handler: log, `fail_task` with the
"No handler registered" message, return a failed result.  Handler returned:
`complete_task`.  Handler raised or timed out: `fail_task`.  Returns the
`TaskResult` given back to the caller and the updated queue. -/
def TaskCoordinator.execute_task (registered : List String)
    (outcome : HandlerOutcome) (q : TaskQueue) (task : Task) (now : ℚ) :
    TaskResult × TaskQueue :=
  if registered.contains task.agent_id then
    match outcome with
    | .success result => (result, q.complete_task task.id result now)
    | .raised msg =>
      let error_msg := "Task " ++ task.id ++ " failed with error: " ++ msg
      (⟨task.id, false, some msg⟩, q.fail_task task.id error_msg now)
    | .timedOut =>
      let error_msg := "Task " ++ task.id ++ " timed out"
      (⟨task.id, false, some error_msg⟩, q.fail_task task.id error_msg now)
  else
    let error_msg := "No handler registered for agent " ++ task.agent_id
    (⟨task.id, false, some error_msg⟩, q.fail_task task.id error_msg now)

/-! ## TaskScheduler (`task_management.py`) -/

/-- One entry of `TaskScheduler.scheduled_tasks`: the recurrence interval in
seconds, the last successful run and the next due time. -/
structure ScheduledEntry where
  interval : ℚ
  last_run : Option ℚ := none
  next_run : ℚ
deriving DecidableEq, Repr

/-- `TaskScheduler.schedule_task` registers an entry with
`last_run = None` and `next_run = now`. -/
def TaskScheduler.schedule_task (now : ℚ) (interval_seconds : ℚ) :
    ScheduledEntry :=
  { interval := interval_seconds, last_run := none, next_run := now }

/-- One pass of `TaskScheduler._schedule_loop` over a single entry at time
`now`, with the callback's behaviour abstracted to `ok` (`true` = returned,
`false` = raised).  A due entry's callback is invoked; on return, `last_run`
and `next_run` are updated; a raised error is caught and logged, leaving the
entry unchanged (the updates sit inside the `try`). -/
def TaskScheduler.tickEntry (now : ℚ) (ok : Bool) (e : ScheduledEntry) :
    ScheduledEntry :=
  if e.next_run ≤ now then
    if ok then
      { e with last_run := some now, next_run := now + e.interval }
    else e
  else e

/-- One pass of the scheduling loop over the whole registry, `outcomes`
giving each callback's behaviour on this pass. -/
def TaskScheduler.tick (now : ℚ) (outcomes : String → Bool)
    (entries : List (String × ScheduledEntry)) :
    List (String × ScheduledEntry) :=
  entries.map fun p => (p.1, TaskScheduler.tickEntry now (outcomes p.1) p.2)

/-! ## CircuitBreaker (`orchestrator.py`) -/

/-- The breaker's `state` string: `"closed"`, `"open"`, `"half-open"`. -/
inductive CBState where
  | closed
  | open
  | halfOpen
deriving DecidableEq, Repr

/-- The mutable state of `CircuitBreaker`. -/
structure CircuitBreaker where
  failure_threshold : ℕ := 5
  timeout : ℚ := 60
  failures : ℕ := 0
  last_failure_time : ℚ := 0
  state : CBState := .closed
deriving DecidableEq, Repr

/-- What `CircuitBreaker.call` does from the caller's point of view:
rejected without invoking the wrapped function, returned the function's
result, or re-raised the function's exception. -/
inductive CBCallResult where
  | rejected
  | returned
  | raised
deriving DecidableEq, Repr

/-- The body of `CircuitBreaker.call` after the open-state check: run the
wrapped function (`funcSucceeds` abstracts its outcome); on success, a
half-open breaker closes and resets the counter (a closed breaker is left
untouched); on failure, increment the counter, restamp
`last_failure_time := now` and open once the counter reaches the
threshold. -/
def CircuitBreaker.callBody (cb : CircuitBreaker) (now : ℚ)
    (funcSucceeds : Bool) : CBCallResult × CircuitBreaker :=
  if funcSucceeds then
    if cb.state = CBState.halfOpen then
      (.returned, { cb with state := CBState.closed, failures := 0 })
    else
      (.returned, cb)
  else
    (.raised, { cb with
      failures := cb.failures + 1,
      last_failure_time := now,
      state := if cb.failures + 1 ≥ cb.failure_threshold then CBState.open
               else cb.state })

/-- `CircuitBreaker.call` at time `now`: while OPEN, reject unless
`now - last_failure_time > timeout`, in which case move to HALF_OPEN and run
the wrapped function; otherwise run it directly. -/
def CircuitBreaker.call (cb : CircuitBreaker) (now : ℚ)
    (funcSucceeds : Bool) : CBCallResult × CircuitBreaker :=
  if cb.state = CBState.open then
    if now - cb.last_failure_time > cb.timeout then
      CircuitBreaker.callBody { cb with state := CBState.halfOpen } now
        funcSucceeds
    else
      (.rejected, cb)
  else
    CircuitBreaker.callBody cb now funcSucceeds

/-! ## ProcessPool (`orchestrator.py`) -/

/-- A subprocess handle: its pid and `returncode` (`none` while alive). -/
structure Worker where
  pid : ℕ
  returncode : Option ℤ := none
deriving DecidableEq, Repr

/-- `worker.returncode is None`. -/
def Worker.alive (w : Worker) : Bool := w.returncode = none

/-- `ProcessPoolStats`. -/
structure ProcessPoolStats where
  total_processes_created : ℕ := 0
  processes_reused : ℕ := 0
  processes_killed : ℕ := 0
  active_processes : ℕ := 0
deriving DecidableEq, Repr

/-- The mutable state of `ProcessPool`: the cap, the idle deque, the busy
set and the statistics. -/
structure ProcessPool where
  max_workers : ℕ := 3
  available_workers : List Worker := []
  busy_workers : List Worker := []
  stats : ProcessPoolStats := {}
deriving DecidableEq, Repr

/-- Python `set.add` on the busy set. -/
def workerInsert (l : List Worker) (w : Worker) : List Worker :=
  if l.contains w then l else l ++ [w]

/-- The `while self.available_workers:` loop of `get_worker`: pop from the
front until a live worker is found, dropping dead ones; returns the live
worker and the rest of the deque. -/
def getWorkerLoop : List Worker → Option (Worker × List Worker)
  | [] => none
  | w :: rest => if w.alive then some (w, rest) else getWorkerLoop rest

/-- `ProcessPool.get_worker`: reuse the first live idle worker if any;
otherwise, if the busy count is below `max_workers`, count a creation and
return `None` (the "create a new process" signal); otherwise return `None`
(pool exhausted). -/
def ProcessPool.get_worker (p : ProcessPool) : Option Worker × ProcessPool :=
  match getWorkerLoop p.available_workers with
  | some (w, rest) =>
    (some w, { p with
      available_workers := rest,
      busy_workers := workerInsert p.busy_workers w,
      stats := { p.stats with
        processes_reused := p.stats.processes_reused + 1 } })
  | none =>
    if p.busy_workers.length < p.max_workers then
      (none, { p with
        available_workers := [],
        stats := { p.stats with
          total_processes_created := p.stats.total_processes_created + 1 } })
    else
      (none, { p with available_workers := [] })

/-- `ProcessPool.return_worker`: drop from the busy set; if still alive,
append to the idle deque and refresh `active_processes`; otherwise count it
killed. -/
def ProcessPool.return_worker (p : ProcessPool) (w : Worker) : ProcessPool :=
  let busy' := p.busy_workers.filter fun x => x ≠ w
  if w.alive then
    let avail' := p.available_workers ++ [w]
    { p with available_workers := avail', busy_workers := busy',
             stats := { p.stats with
               active_processes := avail'.length + busy'.length } }
  else
    { p with busy_workers := busy',
             stats := { p.stats with
               processes_killed := p.stats.processes_killed + 1 } }

/-! ## RateLimiter (`token_manager.py`) -/

/-- The mutable state of `RateLimiter`: the two capacities and the two
timestamp windows (deque front = list head). -/
structure RateLimiter where
  rpm_limit : ℕ
  rph_limit : ℕ
  minute_requests : List ℚ := []
  hour_requests : List ℚ := []
deriving DecidableEq, Repr

/-- `RateLimiter.acquire` at time `now`: prune each window's front while the
front timestamp is older than the window, deny if either pruned window is at
capacity, otherwise append `now` to both windows and allow.  Returns the
result together with the updated state. -/
def RateLimiter.acquire (rl : RateLimiter) (now : ℚ) : Bool × RateLimiter :=
  let minute' := rl.minute_requests.dropWhile fun ts => ts < now - 60
  let hour' := rl.hour_requests.dropWhile fun ts => ts < now - 3600
  if minute'.length ≥ rl.rpm_limit then
    (false, { rl with minute_requests := minute', hour_requests := hour' })
  else if hour'.length ≥ rl.rph_limit then
    (false, { rl with minute_requests := minute', hour_requests := hour' })
  else
    (true, { rl with minute_requests := minute' ++ [now],
                     hour_requests := hour' ++ [now] })

/-- The spec's wording of `acquire` (for comparison with the code's
`RateLimiter.acquire`): prune every timestamp older than 60 seconds from the
minute window and every timestamp older than 3600 seconds from the hour
window; if either pruned window is at its capacity, deny without recording;
otherwise append `now` to both windows and allow. -/
def RateLimiter.acquireSpec (rl : RateLimiter) (now : ℚ) : Bool × RateLimiter :=
  let minuteKept := rl.minute_requests.filter fun ts => !(decide (ts < now - 60))
  let hourKept := rl.hour_requests.filter fun ts => !(decide (ts < now - 3600))
  if minuteKept.length ≥ rl.rpm_limit ∨ hourKept.length ≥ rl.rph_limit then
    (false, { rl with minute_requests := minuteKept, hour_requests := hourKept })
  else
    (true, { rl with minute_requests := minuteKept ++ [now],
                     hour_requests := hourKept ++ [now] })

/-- On an ascending list, dropping a downward-closed prefix predicate from
the front is the same as filtering it out everywhere. -/
lemma dropWhile_lt_eq_filter (c : ℚ) :
    ∀ l : List ℚ, l.Sorted (· ≤ ·) →
      l.dropWhile (fun ts => ts < c) = l.filter fun ts => !(decide (ts < c))
  | [], _ => rfl
  | x :: xs, h => by
    rcases List.sorted_cons.mp h with ⟨hx, hxs⟩
    by_cases hxc : x < c
    · simpa [List.dropWhile_cons, List.filter_cons, hxc] using
        dropWhile_lt_eq_filter c xs hxs
    · have : xs.filter (fun ts => !(decide (ts < c))) = xs :=
        List.filter_eq_self.mpr fun y hy => by
          simp only [Bool.not_eq_true', decide_eq_false_iff_not]
          exact fun hyc => hxc (lt_of_le_of_lt (hx y hy) hyc)
      simp [List.dropWhile_cons, List.filter_cons, hxc, this]

/-! ## Dictionary lemmas -/

lemma find_replace {α : Type} (k : String) (v : α) :
    ∀ l : List (String × α), l.any (fun p => p.1 = k) = true →
      ((l.map fun p => if p.1 = k then (k, v) else p).find? fun p => p.1 = k)
        = some (k, v)
  | [], h => by simp at h
  | a :: as, h => by
    by_cases ha : a.1 = k
    · simp [List.find?_cons, ha]
    · have h' : as.any (fun p => p.1 = k) = true := by
        simpa [List.any_cons, ha] using h
      simp [List.find?_cons, ha, find_replace k v as h']

lemma find_append_absent {α : Type} (k : String) (v : α) :
    ∀ l : List (String × α), l.any (fun p => p.1 = k) = false →
      ((l ++ [(k, v)]).find? fun p => p.1 = k) = some (k, v)
  | [], _ => by simp [List.find?]
  | a :: as, h => by
    have ha : ¬ a.1 = k := by
      intro hk
      simp [List.any_cons, hk] at h
    have h' : as.any (fun p => p.1 = k) = false := by
      simpa [List.any_cons, ha] using h
    simp [List.find?_cons, ha, find_append_absent k v as h']

/-- Looking up the key just written returns the value just written. -/
lemma dictGet_dictSet_self {α : Type} (l : List (String × α)) (k : String)
    (v : α) : dictGet (dictSet l k v) k = some v := by
  unfold dictSet dictGet
  by_cases h : l.any (fun p => p.1 = k) = true
  · simp [h, find_replace k v l h]
  · simp only [Bool.not_eq_true] at h
    simp [h, find_append_absent k v l h]

lemma find_map_ne {α : Type} (k k' : String) (v : α) (h : k' ≠ k) :
    ∀ l : List (String × α),
      ((l.map fun p => if p.1 = k then (k, v) else p).find? fun p => p.1 = k')
        = l.find? fun p => p.1 = k'
  | [] => rfl
  | a :: as => by
    by_cases ha : a.1 = k
    · have : ¬ (k = k') := fun hk => h hk.symm
      simp [List.find?_cons, ha, this, Ne.symm h, find_map_ne k k' v h as]
    · have hif : (if a.1 = k then (k, v) else a) = a := if_neg ha
      rw [List.map_cons, hif]
      by_cases ha' : a.1 = k'
      · simp [List.find?_cons, ha']
      · simp [List.find?_cons, ha', find_map_ne k k' v h as]

lemma find_append_ne {α : Type} (k k' : String) (v : α) (h : k' ≠ k) :
    ∀ l : List (String × α),
      ((l ++ [(k, v)]).find? fun p => p.1 = k') = l.find? fun p => p.1 = k'
  | [] => by simp [List.find?, Ne.symm h]
  | a :: as => by
    by_cases ha : a.1 = k'
    · simp [List.find?_cons, ha]
    · simp [List.find?_cons, ha, find_append_ne k k' v h as]

/-- Writing one key leaves every other key's binding unchanged. -/
lemma dictGet_dictSet_ne {α : Type} (l : List (String × α)) (k k' : String)
    (v : α) (h : k' ≠ k) : dictGet (dictSet l k v) k' = dictGet l k' := by
  unfold dictSet dictGet
  by_cases hany : l.any (fun p => p.1 = k) = true
  · simp [hany, find_map_ne k k' v h l]
  · simp only [Bool.not_eq_true] at hany
    simp [hany, find_append_ne k k' v h l]

/-! ## Selection-scan lemmas -/

/-- Characterization of the scan's accumulator loop: either no candidate
beats the starting score and the accumulator is returned unchanged, or the
scan list splits around the first candidate attaining the maximum score —
every earlier candidate scores strictly less, every later one at most as
much. -/
lemma selectLoop_result (now : ℚ) :
    ∀ (L : List Task) (b : Option Task) (s : ℚ),
      (selectLoop now L (b, s) = (b, s) ∧
        ∀ t ∈ L, TaskQueue.calculate_task_score now t ≤ s) ∨
      (∃ L₁ u L₂, L = L₁ ++ u :: L₂ ∧
        selectLoop now L (b, s) = (some u, TaskQueue.calculate_task_score now u) ∧
        TaskQueue.calculate_task_score now u > s ∧
        (∀ v ∈ L₁, TaskQueue.calculate_task_score now v <
          TaskQueue.calculate_task_score now u) ∧
        (∀ v ∈ L₂, TaskQueue.calculate_task_score now v ≤
          TaskQueue.calculate_task_score now u))
  | [], b, s => by
    left
    exact ⟨rfl, by simp⟩
  | t :: ts, b, s => by
    have hcons : ∀ acc : Option Task × ℚ,
        selectLoop now (t :: ts) acc = selectLoop now ts
          (if TaskQueue.calculate_task_score now t > acc.2 then
            (some t, TaskQueue.calculate_task_score now t) else acc) := by
      intro acc
      rfl
    by_cases h : TaskQueue.calculate_task_score now t > s
    · rcases selectLoop_result now ts (some t)
        (TaskQueue.calculate_task_score now t) with
        ⟨heq, hall⟩ | ⟨M₁, u, M₂, hsplit, heq, hgt, hlt, hle⟩
      · right
        refine ⟨[], t, ts, by simp, ?_, h, by simp, hall⟩
        rw [hcons (b, s), if_pos h]
        exact heq
      · right
        refine ⟨t :: M₁, u, M₂, by rw [hsplit]; simp, ?_, lt_trans h hgt, ?_, hle⟩
        · rw [hcons (b, s), if_pos h]
          exact heq
        · intro v hv
          rcases List.mem_cons.mp hv with hv | hv
          · rw [hv]
            exact hgt
          · exact hlt v hv
    · rcases selectLoop_result now ts b s with
        ⟨heq, hall⟩ | ⟨M₁, u, M₂, hsplit, heq, hgt, hlt, hle⟩
      · left
        constructor
        · rw [hcons (b, s), if_neg h]
          exact heq
        · intro v hv
          rcases List.mem_cons.mp hv with hv | hv
          · rw [hv]
            exact le_of_not_lt h
          · exact hall v hv
      · right
        refine ⟨t :: M₁, u, M₂, by rw [hsplit]; simp, ?_, hgt, ?_, hle⟩
        · rw [hcons (b, s), if_neg h]
          exact heq
        · intro v hv
          rcases List.mem_cons.mp hv with hv | hv
          · rw [hv]
            exact lt_of_le_of_lt (le_of_not_lt h) hgt
          · exact hlt v hv

/-- Every task the scan visits has all its dependencies in the completed
index. -/
lemma mem_scanCandidates_can_start (q : TaskQueue) (t : Task)
    (h : t ∈ q.scanCandidates) : t.can_start q.completedIds = true := by
  unfold TaskQueue.scanCandidates at h
  rcases List.mem_flatMap.mp h with ⟨p, _, hmem⟩
  rcases List.mem_filterMap.mp hmem with ⟨id, _, hf⟩
  cases hd : dictGet q.tasks id with
  | none =>
    rw [hd] at hf
    cases hf
  | some task =>
    rw [hd] at hf
    dsimp only at hf
    by_cases hr : q.running_tasks.contains id = true
    · rw [if_pos hr] at hf
      cases hf
    · rw [if_neg hr] at hf
      by_cases hc : task.can_start q.completedIds = true
      · rw [if_pos hc] at hf
        rw [← Option.some.inj hf]
        exact hc
      · rw [if_neg hc] at hf
        cases hf

/-! ## Claim C7 — RateLimiter.acquire -/

/-- C7: `RateLimiter.acquire` is a single step that prunes timestamps older
than 60 s from the minute window and older than 3600 s from the hour window,
denies without recording when either pruned window is at capacity, and
otherwise appends `now` to both windows and allows (stated as agreement with
the spec-worded `acquireSpec` on time-ordered windows); moreover with
`requests_per_minute = 2`, three calls within one second yield
true, true, false, and a fourth call 61 seconds later yields true. -/
theorem C7_acquire_correct (rl : RateLimiter) (now : ℚ)
    (hm : rl.minute_requests.Sorted (· ≤ ·))
    (hh : rl.hour_requests.Sorted (· ≤ ·)) :
    rl.acquire now = rl.acquireSpec now ∧
    (let s0 : RateLimiter := { rpm_limit := 2, rph_limit := 500 }
     let c1 := s0.acquire 0
     let c2 := c1.2.acquire (1/2)
     let c3 := c2.2.acquire 1
     let c4 := c3.2.acquire 62
     c1.1 = true ∧ c2.1 = true ∧ c3.1 = false ∧ c4.1 = true) := by
  constructor
  · simp only [RateLimiter.acquire, RateLimiter.acquireSpec]
    rw [dropWhile_lt_eq_filter _ _ hm, dropWhile_lt_eq_filter _ _ hh]
    by_cases h1 : (rl.minute_requests.filter
        fun ts => !(decide (ts < now - 60))).length ≥ rl.rpm_limit
    · simp [h1]
    · by_cases h2 : (rl.hour_requests.filter
          fun ts => !(decide (ts < now - 3600))).length ≥ rl.rph_limit
      · simp [h1, h2]
      · simp [h1, h2]
  · norm_num [RateLimiter.acquire, List.dropWhile]

/-- Witness for C7 at a concrete limiter with time-ordered windows. -/
theorem C7_acquire_correct_witness :
    RateLimiter.acquire
        { rpm_limit := 2, rph_limit := 500,
          minute_requests := [0, 1/2], hour_requests := [0, 1/2] } 1 =
      RateLimiter.acquireSpec
        { rpm_limit := 2, rph_limit := 500,
          minute_requests := [0, 1/2], hour_requests := [0, 1/2] } 1 ∧
    (let s0 : RateLimiter := { rpm_limit := 2, rph_limit := 500 }
     let c1 := s0.acquire 0
     let c2 := c1.2.acquire (1/2)
     let c3 := c2.2.acquire 1
     let c4 := c3.2.acquire 62
     c1.1 = true ∧ c2.1 = true ∧ c3.1 = false ∧ c4.1 = true) :=
  C7_acquire_correct
    { rpm_limit := 2, rph_limit := 500,
      minute_requests := [0, 1/2], hour_requests := [0, 1/2] } 1
    (by norm_num [List.sorted_cons]) (by norm_num [List.sorted_cons])

/-! ## Claim C4 — CircuitBreaker -/

lemma cbClosed_ne_open : CBState.closed ≠ CBState.open := by decide

lemma cbClosed_ne_halfOpen : CBState.closed ≠ CBState.halfOpen := by decide

lemma cbOpen_ne_closed : CBState.open ≠ CBState.closed := by decide

/-- C4 counterexample: the failure counter is not reset by a successful call
while CLOSED.  With `failure_threshold = 2`, the sequence
fail, success, fail leaves the counter at 2 and opens the circuit, although
only one failure was consecutive; under the claim's counter (reset to zero
by every successful call) it would stand at 1 and the circuit would stay
CLOSED. -/
theorem C4_counterexample :
    (((CircuitBreaker.call { failure_threshold := 2, timeout := 60 } 0
        false).2).failures = 1) ∧
    ((CircuitBreaker.call
        ((CircuitBreaker.call { failure_threshold := 2, timeout := 60 } 0
          false).2) 1 true).2.failures ≠ 0) ∧
    ((CircuitBreaker.call
        ((CircuitBreaker.call
          ((CircuitBreaker.call { failure_threshold := 2, timeout := 60 } 0
            false).2) 1 true).2) 2 false).2.state = CBState.open) := by
  have h1 : CircuitBreaker.call { failure_threshold := 2, timeout := 60 } 0
      false =
      (CBCallResult.raised,
        { failure_threshold := 2, timeout := 60, failures := 1,
          last_failure_time := 0, state := CBState.closed }) := by
    norm_num [CircuitBreaker.call, CircuitBreaker.callBody, cbClosed_ne_open,
      cbClosed_ne_halfOpen]
  have h2 : CircuitBreaker.call
      { failure_threshold := 2, timeout := 60, failures := 1,
        last_failure_time := 0, state := CBState.closed } 1 true =
      (CBCallResult.returned,
        { failure_threshold := 2, timeout := 60, failures := 1,
          last_failure_time := 0, state := CBState.closed }) := by
    norm_num [CircuitBreaker.call, CircuitBreaker.callBody, cbClosed_ne_open,
      cbClosed_ne_halfOpen]
  have h3 : CircuitBreaker.call
      { failure_threshold := 2, timeout := 60, failures := 1,
        last_failure_time := 0, state := CBState.closed } 2 false =
      (CBCallResult.raised,
        { failure_threshold := 2, timeout := 60, failures := 2,
          last_failure_time := 2, state := CBState.open }) := by
    norm_num [CircuitBreaker.call, CircuitBreaker.callBody, cbClosed_ne_open,
      cbClosed_ne_halfOpen]
  simp [h1, h2, h3]

/-- C4 amended: the failure counter is incremented by every failed call
(and, at the threshold, opens the circuit with `last_failure_time`
restamped); a successful call while CLOSED leaves breaker state — counter
included — untouched, so the counter is cumulative rather than consecutive;
while OPEN and within `timeout` of the last failure every call is rejected
with the breaker unchanged and the wrapped function not invoked; once more
than `timeout` has elapsed, the next call runs as a HALF_OPEN probe and a
successful probe returns to CLOSED with the counter reset to 0. -/
theorem C4_circuit_breaker_amended (cb : CircuitBreaker) (now : ℚ)
    (ok : Bool) :
    (cb.state = CBState.open → now - cb.last_failure_time ≤ cb.timeout →
      cb.call now ok = (CBCallResult.rejected, cb)) ∧
    ((cb.call now ok).1 = CBCallResult.raised →
      (cb.call now ok).2.failures = cb.failures + 1 ∧
      (cb.call now ok).2.last_failure_time = now ∧
      (cb.failures + 1 ≥ cb.failure_threshold →
        (cb.call now ok).2.state = CBState.open)) ∧
    (cb.state = CBState.closed → ok = true →
      cb.call now ok = (CBCallResult.returned, cb)) ∧
    (cb.state = CBState.open → now - cb.last_failure_time > cb.timeout →
      ok = true →
      (cb.call now ok).1 = CBCallResult.returned ∧
      (cb.call now ok).2.state = CBState.closed ∧
      (cb.call now ok).2.failures = 0) := by
  refine ⟨?_, ?_, ?_, ?_⟩
  · intro hst htime
    simp [CircuitBreaker.call, hst, not_lt.mpr htime]
  · intro hr
    by_cases hst : cb.state = CBState.open
    · by_cases htime : now - cb.last_failure_time > cb.timeout
      · cases ok
        · simp [CircuitBreaker.call, CircuitBreaker.callBody, hst, htime]
        · simp [CircuitBreaker.call, CircuitBreaker.callBody, hst, htime] at hr
      · simp [CircuitBreaker.call, hst, htime] at hr
    · cases ok
      · simp [CircuitBreaker.call, CircuitBreaker.callBody, hst]
      · by_cases hho : cb.state = CBState.halfOpen
        · simp [CircuitBreaker.call, CircuitBreaker.callBody, hst, hho] at hr
        · simp [CircuitBreaker.call, CircuitBreaker.callBody, hst, hho] at hr
  · intro hst hok
    subst hok
    have h1 : cb.state ≠ CBState.open := by
      rw [hst]
      intro h
      cases h
    have h2 : cb.state ≠ CBState.halfOpen := by
      rw [hst]
      intro h
      cases h
    simp [CircuitBreaker.call, CircuitBreaker.callBody, h1, h2]
  · intro hst htime hok
    subst hok
    simp [CircuitBreaker.call, CircuitBreaker.callBody, hst, htime]

/-- Witness for C4 at a concrete breaker: OPEN within the timeout rejects
without touching state, and the later successful probe closes with the
counter cleared. -/
theorem C4_circuit_breaker_amended_witness :
    ((CBState.open = CBState.open →
        (30 : ℚ) - 0 ≤ 60 →
        CircuitBreaker.call
          { failure_threshold := 2, timeout := 60, failures := 2,
            last_failure_time := 0, state := CBState.open } 30 true =
          (CBCallResult.rejected,
            { failure_threshold := 2, timeout := 60, failures := 2,
              last_failure_time := 0, state := CBState.open })) ∧ True) ∧
    (CircuitBreaker.call
        { failure_threshold := 2, timeout := 60, failures := 2,
          last_failure_time := 0, state := CBState.open } 30 true =
      (CBCallResult.rejected,
        { failure_threshold := 2, timeout := 60, failures := 2,
          last_failure_time := 0, state := CBState.open })) ∧
    ((CircuitBreaker.call
        { failure_threshold := 2, timeout := 60, failures := 2,
          last_failure_time := 0, state := CBState.open } 61 true).2.failures
      = 0) :=
  ⟨⟨(C4_circuit_breaker_amended
      { failure_threshold := 2, timeout := 60, failures := 2,
        last_failure_time := 0, state := CBState.open } 30 true).1, trivial⟩,
    (C4_circuit_breaker_amended
      { failure_threshold := 2, timeout := 60, failures := 2,
        last_failure_time := 0, state := CBState.open } 30 true).1 rfl
      (by norm_num),
    ((C4_circuit_breaker_amended
      { failure_threshold := 2, timeout := 60, failures := 2,
        last_failure_time := 0, state := CBState.open } 61 true).2.2.2 rfl
      (by norm_num) rfl).2.2⟩

/-! ## Claim C9 — TaskScheduler error handling -/

/-- C9 counterexample: a due entry whose callback raises does not get
`next_run := now + interval` — the entry is left unchanged (the update sits
inside the `try`), so it is due again on the next tick. -/
theorem C9_counterexample :
    (TaskScheduler.schedule_task 0 10).next_run ≤ 5 ∧
    (TaskScheduler.tickEntry 5 false (TaskScheduler.schedule_task 0 10)).next_run
      ≠ 5 + 10 := by
  norm_num [TaskScheduler.schedule_task, TaskScheduler.tickEntry]

/-- C9 amended: on a tick at time `now`, a due entry (`next_run ≤ now`)
whose callback returns has `last_run := now` and `next_run := now + interval`;
a due entry whose callback raises has the error caught and the entry left
entirely unchanged — in particular it is still due (`next_run ≤ now`), so it
is re-invoked on the next tick rather than after its interval; an entry that
is not yet due is untouched. -/
theorem C9_scheduler_amended (now : ℚ) (ok : Bool) (e : ScheduledEntry) :
    (e.next_run ≤ now → ok = true →
      TaskScheduler.tickEntry now ok e =
        { e with last_run := some now, next_run := now + e.interval }) ∧
    (e.next_run ≤ now → ok = false →
      TaskScheduler.tickEntry now ok e = e ∧
      (TaskScheduler.tickEntry now ok e).next_run ≤ now) ∧
    (¬ e.next_run ≤ now → TaskScheduler.tickEntry now ok e = e) := by
  refine ⟨?_, ?_, ?_⟩
  · intro hdue hok
    simp [TaskScheduler.tickEntry, hdue, hok]
  · intro hdue hok
    subst hok
    refine ⟨by simp [TaskScheduler.tickEntry, hdue], ?_⟩
    rw [show TaskScheduler.tickEntry now false e = e by
      simp [TaskScheduler.tickEntry, hdue]]
    exact hdue
  · intro hdue
    simp [TaskScheduler.tickEntry, hdue]

/-- Witness for C9 at a concrete entry: a due, succeeding callback advances
`next_run` by its interval. -/
theorem C9_scheduler_amended_witness :
    (TaskScheduler.schedule_task 0 10).next_run ≤ 5 ∧
    TaskScheduler.tickEntry 5 true (TaskScheduler.schedule_task 0 10) =
      { TaskScheduler.schedule_task 0 10 with
          last_run := some 5, next_run := 5 + 10 } :=
  ⟨by norm_num [TaskScheduler.schedule_task],
    (C9_scheduler_amended 5 true (TaskScheduler.schedule_task 0 10)).1
      (by norm_num [TaskScheduler.schedule_task]) rfl⟩

/-! ## Claim C10 — ProcessPool.get_worker -/

/-- C10: the code makes the "create a new worker" signal and the
"no worker available" backpressure signal the *same* value `None`: with no
idle worker, `get_worker` returns `None` both below capacity and at
capacity, so the caller cannot distinguish the two outcomes the claim
requires to be mutually distinguishable (only the live-worker outcome is
distinct). -/
theorem C10_code_bug :
    (ProcessPool.get_worker
        { max_workers := 1, available_workers := [], busy_workers := [] }).1
      = none ∧
    (ProcessPool.get_worker
        { max_workers := 1, available_workers := [],
          busy_workers := [{ pid := 7 }] }).1 = none ∧
    (ProcessPool.get_worker
        { max_workers := 1, available_workers := [{ pid := 3 }],
          busy_workers := [] }).1 = some { pid := 3 } := by
  decide

/-! ## Claim C1 — runnability predicate of get_next_task -/

/-- C1: the code contradicts the claimed runnability predicate in both
directions.  (i) A pending task whose only dependency is marked
`required = false` is *not* selectable: `can_start` ignores the `required`
flag, so the optional unresolved dependency blocks selection and
`get_next_task` returns nothing.  (ii) A task in terminal status is *not*
never-returned: `cancel_task` leaves the id in its pending deque, so a
CANCELLED task is selected (and flipped back to RUNNING) by the next
`get_next_task`. -/
theorem C1_code_bug :
    (let t : Task := { id := "t1", agent_id := "h",
                       dependencies := [{ task_id := "d", required := false }] }
     let q := TaskQueue.add_task {} t
     t.status = TaskStatus.pending ∧
     t.can_start q.completedIds = false ∧
     (q.get_next_task 0).1 = none) ∧
    (let t2 : Task := { id := "t2", agent_id := "h" }
     let q2 := (TaskQueue.add_task {} t2).cancel_task "t2" 0
     (dictGet q2.tasks "t2").map Task.status = some TaskStatus.cancelled ∧
     ((q2.get_next_task 1).1).map Task.id = some "t2") := by
  constructor
  · refine ⟨rfl, by norm_num [Task.can_start, TaskQueue.completedIds,
      TaskQueue.add_task, dictSet, TaskQueue.setPending,
      TaskQueue.pending], ?_⟩
    norm_num [TaskQueue.get_next_task, TaskQueue.scanCandidates,
      prioritiesHighToLow, TaskQueue.pending, TaskQueue.setPending,
      TaskQueue.add_task, dictSet, dictGet, List.find?, TaskQueue.completedIds,
      Task.can_start, selectLoop, List.foldl]
  · constructor
    · norm_num [TaskQueue.add_task, TaskQueue.cancel_task, dictSet, dictGet,
        List.find?, TaskQueue.setPending, TaskQueue.pending, setDiscard]
    · norm_num [TaskQueue.get_next_task, TaskQueue.scanCandidates,
        prioritiesHighToLow, TaskQueue.pending, TaskQueue.setPending,
        TaskQueue.add_task, TaskQueue.cancel_task, dictSet, dictGet,
        List.find?, TaskQueue.completedIds, Task.can_start, selectLoop,
        setDiscard, TaskQueue.calculate_task_score, TaskPriority.value,
        setInsert, List.foldl]

/-! ## Claim C3 — retry bound -/

/-- C3: with `max_retries = 0` the claim allows at most one execution
attempt.  The code permanently fails the task after its single attempt —
but `get_next_task` never removed the id from the pending deque, so the
very next scan selects the FAILED task again (flipping it back to RUNNING):
a second execution attempt, exceeding the claimed `R+1` bound. -/
theorem C3_code_bug :
    (let t : Task := { id := "t1", agent_id := "h", max_retries := 0 }
     let q0 := TaskQueue.add_task {} t
     let r1 := q0.get_next_task 0
     let q2 := r1.2.fail_task "t1" "boom" 1
     let r3 := q2.get_next_task 2
     (r1.1.map Task.id) = some "t1" ∧
     (dictGet q2.tasks "t1").map Task.status = some TaskStatus.failed ∧
     dictGet q2.completed_tasks "t1" = some ⟨"t1", false, some "boom"⟩ ∧
     (r3.1.map Task.id) = some "t1" ∧
     (dictGet r3.2.tasks "t1").map Task.status = some TaskStatus.running) := by
  norm_num [TaskQueue.get_next_task, TaskQueue.scanCandidates,
    prioritiesHighToLow, TaskQueue.pending, TaskQueue.setPending,
    TaskQueue.add_task, TaskQueue.fail_task, dictSet, dictGet, List.find?,
    TaskQueue.completedIds, Task.can_start, selectLoop, setDiscard, setInsert,
    TaskQueue.calculate_task_score, TaskPriority.value, List.foldl]

/-! ## Claim C2 — fairness-score selection -/

/-- C2 counterexample: two NORMAL tasks with equal fairness scores; task "b"
has the earlier `created_at` (its half-hour age bonus offsets its spent
retry), but the scan keeps the first strict maximum, so the
earlier-enqueued task "a" is returned — ties are broken by queue order,
not by earliest `created_at`. -/
theorem C2_counterexample :
    (let a : Task := { id := "a", agent_id := "h", created_at := 7200,
                       retry_count := 0, max_retries := 3 }
     let b : Task := { id := "b", agent_id := "h", created_at := 5400,
                       retry_count := 1, max_retries := 3 }
     let q := (TaskQueue.add_task {} a).add_task b
     TaskQueue.calculate_task_score 7200 a =
       TaskQueue.calculate_task_score 7200 b ∧
     b.created_at < a.created_at ∧
     ((q.get_next_task 7200).1.map Task.id) = some "a") := by
  norm_num [TaskQueue.get_next_task, TaskQueue.scanCandidates,
    prioritiesHighToLow, TaskQueue.pending, TaskQueue.setPending,
    TaskQueue.add_task, dictSet, dictGet, List.find?, TaskQueue.completedIds,
    Task.can_start, selectLoop, setInsert,
    TaskQueue.calculate_task_score, TaskPriority.value, List.foldl]

/-- Restamping status and `started_at` does not change what `can_start`
sees: dependencies are untouched. -/
lemma can_start_update (u : Task) (s : TaskStatus) (a : Option ℚ)
    (c : List String) :
    ({ u with status := s, started_at := a } : Task).can_start c =
      u.can_start c := rfl

/-- A key with a binding is among the dictionary's keys. -/
lemma dictGet_some_keys_contains {α : Type} (k : String) (v : α) :
    ∀ l : List (String × α), dictGet l k = some v →
      (l.map Prod.fst).contains k = true
  | [], h => by simp [dictGet] at h
  | a :: as, h => by
    by_cases ha : a.1 = k
    · simp [ha]
    · have h' : dictGet as k = some v := by
        simpa [dictGet, List.find?_cons, ha] using h
      have := dictGet_some_keys_contains k v as h'
      simpa [List.contains_cons] using Or.inr (by simpa using this)

/-- C2 amended: `get_next_task` returns (stamped RUNNING with
`started_at := now`) the *first* candidate of the scan — priorities
CRITICAL→LOW, deque order within a priority — attaining the maximum
fairness score, provided that maximum exceeds the initial best score −1;
ties are broken by scan position (earlier candidates of equal score win),
not by earliest `created_at`; if every candidate scores ≤ −1 (possible with
enough dependencies), no task is returned at all. -/
theorem C2_selection_amended (q : TaskQueue) (now : ℚ) :
    ((q.get_next_task now).1 = none →
      ∀ t ∈ q.scanCandidates, TaskQueue.calculate_task_score now t ≤ -1) ∧
    (∀ t', (q.get_next_task now).1 = some t' →
      ∃ L₁ u L₂, q.scanCandidates = L₁ ++ u :: L₂ ∧
        t' = { u with status := TaskStatus.running,
                      started_at := some now } ∧
        TaskQueue.calculate_task_score now u > -1 ∧
        (∀ v ∈ L₁, TaskQueue.calculate_task_score now v <
          TaskQueue.calculate_task_score now u) ∧
        (∀ v ∈ L₂, TaskQueue.calculate_task_score now v ≤
          TaskQueue.calculate_task_score now u)) := by
  rcases selectLoop_result now q.scanCandidates none (-1) with
    ⟨heq, hall⟩ | ⟨L₁, u, L₂, hsplit, heq, hgt, hlt, hle⟩
  · constructor
    · intro _ t ht
      exact hall t ht
    · intro t' ht'
      unfold TaskQueue.get_next_task at ht'
      rw [heq] at ht'
      simp at ht'
  · constructor
    · intro hn
      unfold TaskQueue.get_next_task at hn
      rw [heq] at hn
      simp at hn
    · intro t' ht'
      unfold TaskQueue.get_next_task at ht'
      rw [heq] at ht'
      simp only [Option.some.injEq] at ht'
      exact ⟨L₁, u, L₂, hsplit, ht'.symm, hgt, hlt, hle⟩

/-- Witness for C2 at a concrete one-task queue. -/
theorem C2_selection_amended_witness :
    (((TaskQueue.add_task {} { id := "t1", agent_id := "h" }).get_next_task
        0).1 = none →
      ∀ t ∈ (TaskQueue.add_task {}
          { id := "t1", agent_id := "h" }).scanCandidates,
        TaskQueue.calculate_task_score 0 t ≤ -1) ∧
    (∀ t', ((TaskQueue.add_task {} { id := "t1", agent_id := "h" }).get_next_task
        0).1 = some t' →
      ∃ L₁ u L₂,
        (TaskQueue.add_task {} { id := "t1", agent_id := "h" }).scanCandidates
          = L₁ ++ u :: L₂ ∧
        t' = { u with status := TaskStatus.running, started_at := some 0 } ∧
        TaskQueue.calculate_task_score 0 u > -1 ∧
        (∀ v ∈ L₁, TaskQueue.calculate_task_score 0 v <
          TaskQueue.calculate_task_score 0 u) ∧
        (∀ v ∈ L₂, TaskQueue.calculate_task_score 0 v ≤
          TaskQueue.calculate_task_score 0 u)) :=
  C2_selection_amended (TaskQueue.add_task {} { id := "t1", agent_id := "h" }) 0

/-! ## Claim C6 — dependency completion -/

/-- C6 counterexample: a required completion-type dependency on a CANCELLED
(terminal) task does not unblock the dependent — `cancel_task` records
nothing in the completed index, so `can_start` stays false and the next
scan does not select the dependent. -/
theorem C6_counterexample :
    (let d : Task := { id := "d", agent_id := "h" }
     let t : Task := { id := "t", agent_id := "h",
                       dependencies := [{ task_id := "d" }] }
     let q1 := ((TaskQueue.add_task {} d).add_task t).cancel_task "d" 0
     (dictGet q1.tasks "d").map Task.status = some TaskStatus.cancelled ∧
     (dictGet q1.tasks "d").map Task.is_completed = some true ∧
     t.can_start q1.completedIds = false ∧
     ((q1.get_next_task 1).1.map Task.id ≠ some "t")) := by
  norm_num [TaskQueue.get_next_task, TaskQueue.scanCandidates,
    prioritiesHighToLow, TaskQueue.pending, TaskQueue.setPending,
    TaskQueue.add_task, TaskQueue.cancel_task, dictSet, dictGet, List.find?,
    TaskQueue.completedIds, Task.can_start, Task.is_completed, selectLoop,
    setDiscard, setInsert, TaskQueue.calculate_task_score, TaskPriority.value,
    List.foldl]
  decide

/-- C6 amended: a selected task always has every dependency in the
completed-task index; `cancel_task` never touches that index (so a
dependency that was CANCELLED keeps blocking its dependents), while
`complete_task` and retry-exhausted `fail_task` record the referenced id in
the index (a retrying `fail_task` does not); concretely, a CRITICAL task
depending on "d" is passed over in favour of "d" while blocked, and is
selected on the first scan after `complete_task "d"`. -/
theorem C6_dependency_amended (q : TaskQueue) (now : ℚ) (id : String)
    (t : Task) (res : TaskResult) (err : String) :
    (∀ t', (q.get_next_task now).1 = some t' →
      t'.can_start q.completedIds = true) ∧
    ((q.cancel_task id now).completed_tasks = q.completed_tasks) ∧
    (dictGet q.tasks id = some t →
      ((q.complete_task id res now).completedIds.contains id = true) ∧
      (t.retry_count < t.max_retries →
        (q.fail_task id err now).completed_tasks = q.completed_tasks) ∧
      (¬ t.retry_count < t.max_retries →
        (q.fail_task id err now).completedIds.contains id = true)) ∧
    (let d : Task := { id := "d", agent_id := "h" }
     let c : Task := { id := "t", agent_id := "h",
                       priority := TaskPriority.critical,
                       dependencies := [{ task_id := "d" }] }
     let q0 := (TaskQueue.add_task {} d).add_task c
     let r1 := q0.get_next_task 0
     let q2 := r1.2.complete_task "d" ⟨"d", true, none⟩ 1
     (r1.1.map Task.id = some "d") ∧
     ((q2.get_next_task 2).1.map Task.id = some "t")) := by
  refine ⟨?_, ?_, ?_, ?_⟩
  · intro t' ht'
    rcases selectLoop_result now q.scanCandidates none (-1) with
      ⟨heq, _⟩ | ⟨L₁, u, L₂, hsplit, heq, _, _, _⟩
    · unfold TaskQueue.get_next_task at ht'
      rw [heq] at ht'
      simp at ht'
    · unfold TaskQueue.get_next_task at ht'
      rw [heq] at ht'
      simp only [Option.some.injEq] at ht'
      have hu : u ∈ q.scanCandidates := by
        rw [hsplit]
        exact List.mem_append.mpr (Or.inr (List.mem_cons_self u L₂))
      rw [← ht', can_start_update]
      exact mem_scanCandidates_can_start q u hu
  · cases hd : dictGet q.tasks id with
    | none => simp [TaskQueue.cancel_task, hd]
    | some task => simp [TaskQueue.cancel_task, hd]
  · intro hd
    refine ⟨?_, ?_, ?_⟩
    · simp only [TaskQueue.complete_task, hd, TaskQueue.completedIds]
      exact dictGet_some_keys_contains id res _
        (dictGet_dictSet_self q.completed_tasks id res)
    · intro hretry
      simp [TaskQueue.fail_task, hd, hretry, TaskQueue.setPending]
      cases t.priority <;> simp [TaskQueue.setPending]
    · intro hretry
      simp only [TaskQueue.fail_task, hd, if_neg hretry, TaskQueue.completedIds]
      exact dictGet_some_keys_contains id _ _
        (dictGet_dictSet_self q.completed_tasks id _)
  · have h1 : (TaskQueue.add_task
        (TaskQueue.add_task {} { id := "d", agent_id := "h" })
        { id := "t", agent_id := "h", priority := TaskPriority.critical,
          dependencies := [{ task_id := "d" }] }).get_next_task 0 =
        (some { id := "d", agent_id := "h", status := TaskStatus.running,
                started_at := some 0 },
          { tasks := [("d", { id := "d", agent_id := "h",
                              status := TaskStatus.running,
                              started_at := some 0 }),
                      ("t", { id := "t", agent_id := "h",
                              priority := TaskPriority.critical,
                              dependencies := [{ task_id := "d" }] })],
            pending_normal := ["d"], pending_critical := ["t"],
            running_tasks := ["d"] }) := by
      simp [TaskQueue.get_next_task, TaskQueue.scanCandidates,
        prioritiesHighToLow, TaskQueue.pending, TaskQueue.setPending,
        TaskQueue.add_task, dictSet, dictGet, List.find?,
        TaskQueue.completedIds, Task.can_start, selectLoop, setInsert,
        TaskQueue.calculate_task_score, TaskPriority.value, List.foldl]
      norm_num
      decide
    have h2 : TaskQueue.complete_task
        { tasks := [("d", { id := "d", agent_id := "h",
                            status := TaskStatus.running,
                            started_at := some 0 }),
                    ("t", { id := "t", agent_id := "h",
                            priority := TaskPriority.critical,
                            dependencies := [{ task_id := "d" }] })],
          pending_normal := ["d"], pending_critical := ["t"],
          running_tasks := ["d"] } "d" ⟨"d", true, none⟩ 1 =
        { tasks := [("d", { id := "d", agent_id := "h",
                            status := TaskStatus.completed,
                            started_at := some 0, completed_at := some 1 }),
                    ("t", { id := "t", agent_id := "h",
                            priority := TaskPriority.critical,
                            dependencies := [{ task_id := "d" }] })],
          pending_normal := ["d"], pending_critical := ["t"],
          running_tasks := [],
          completed_tasks := [("d", ⟨"d", true, none⟩)] } := by
      simp [TaskQueue.complete_task, dictSet, dictGet, List.find?,
        setDiscard]
    have h3 : ((TaskQueue.get_next_task
        { tasks := [("d", { id := "d", agent_id := "h",
                            status := TaskStatus.completed,
                            started_at := some 0, completed_at := some 1 }),
                    ("t", { id := "t", agent_id := "h",
                            priority := TaskPriority.critical,
                            dependencies := [{ task_id := "d" }] })],
          pending_normal := ["d"], pending_critical := ["t"],
          running_tasks := [],
          completed_tasks := [("d", ⟨"d", true, none⟩)] } 2).1).map Task.id
        = some "t" := by
      simp [TaskQueue.get_next_task, TaskQueue.scanCandidates,
        prioritiesHighToLow, TaskQueue.pending, TaskQueue.setPending,
        dictSet, dictGet, List.find?, TaskQueue.completedIds, Task.can_start,
        selectLoop, setInsert, TaskQueue.calculate_task_score,
        TaskPriority.value, List.foldl]
      norm_num
    constructor
    · simp [h1]
    · simp [h1, h2, h3]

/-- Witness for C6 at a concrete queue: completing a recorded task puts it
in the completed index. -/
theorem C6_dependency_amended_witness :
    dictGet (TaskQueue.add_task {} { id := "d", agent_id := "h" }).tasks "d"
      = some { id := "d", agent_id := "h" } ∧
    ((TaskQueue.add_task {} { id := "d", agent_id := "h" }).complete_task "d"
        ⟨"d", true, none⟩ 1).completedIds.contains "d" = true :=
  ⟨by norm_num [TaskQueue.add_task, dictSet, dictGet, List.find?,
      TaskQueue.setPending],
    ((C6_dependency_amended
        (TaskQueue.add_task {} { id := "d", agent_id := "h" }) 1 "d"
        { id := "d", agent_id := "h" } ⟨"d", true, none⟩ "e").2.2.1
      (by norm_num [TaskQueue.add_task, dictSet, dictGet, List.find?,
        TaskQueue.setPending])).1⟩

/-- Replacing a pending deque leaves the task dictionary untouched. -/
lemma setPending_tasks (q : TaskQueue) (p : TaskPriority) (l : List String) :
    (q.setPending p l).tasks = q.tasks := by
  cases p <;> rfl

/-- `fail_task` with retry budget left: the stored task is requeued as
PENDING with `retry_count` incremented and nothing else changed. -/
lemma fail_task_retry_get (q : TaskQueue) (id err : String) (now : ℚ)
    (t : Task) (ht : dictGet q.tasks id = some t)
    (hlt : t.retry_count < t.max_retries) :
    dictGet (q.fail_task id err now).tasks id =
      some { t with retry_count := t.retry_count + 1,
                    status := TaskStatus.pending } := by
  unfold TaskQueue.fail_task
  rw [ht]
  dsimp only
  rw [if_pos hlt, setPending_tasks]
  exact dictGet_dictSet_self q.tasks id _

/-- `fail_task` with retries exhausted: the stored task becomes FAILED with
`completed_at` stamped and nothing else changed. -/
lemma fail_task_final_get (q : TaskQueue) (id err : String) (now : ℚ)
    (t : Task) (ht : dictGet q.tasks id = some t)
    (hge : ¬ t.retry_count < t.max_retries) :
    dictGet (q.fail_task id err now).tasks id =
      some { t with status := TaskStatus.failed,
                    completed_at := some now } := by
  unfold TaskQueue.fail_task
  rw [ht]
  dsimp only
  rw [if_neg hge]
  exact dictGet_dictSet_self q.tasks id _

/-- `complete_task`: the stored task becomes COMPLETED or FAILED (per the
result's success flag) with `completed_at` stamped and nothing else
changed. -/
lemma complete_task_get (q : TaskQueue) (id : String) (res : TaskResult)
    (now : ℚ) (t : Task) (ht : dictGet q.tasks id = some t) :
    dictGet (q.complete_task id res now).tasks id =
      some { t with
        status := if res.success then TaskStatus.completed
                  else TaskStatus.failed,
        completed_at := some now } := by
  unfold TaskQueue.complete_task
  rw [ht]
  dsimp only
  exact dictGet_dictSet_self q.tasks id _

/-- `cancel_task`: the stored task becomes CANCELLED with `completed_at`
stamped and nothing else changed. -/
lemma cancel_task_get (q : TaskQueue) (id : String) (now : ℚ) (t : Task)
    (ht : dictGet q.tasks id = some t) :
    dictGet (q.cancel_task id now).tasks id =
      some { t with status := TaskStatus.cancelled,
                    completed_at := some now } := by
  unfold TaskQueue.cancel_task
  rw [ht]
  dsimp only
  exact dictGet_dictSet_self q.tasks id _

/-! ## Claim C5 — missing handler -/

/-- C5 counterexample: with no handler registered for agent "a" and
`max_retries = 1`, executing the task does NOT fail it terminally: it goes
through the ordinary `fail_task` path and is requeued PENDING with
`retry_count = 1`, i.e. it will be retried despite the handler being
permanently absent. -/
theorem C5_counterexample :
    (let t : Task := { id := "t1", agent_id := "a", max_retries := 1 }
     let q0 := TaskQueue.add_task {} t
     let r := q0.get_next_task 0
     let q2 := (TaskCoordinator.execute_task [] (HandlerOutcome.raised "x")
       r.2 (r.1.getD t) 0).2
     (dictGet q2.tasks "t1").map Task.status = some TaskStatus.pending ∧
     (dictGet q2.tasks "t1").map Task.retry_count = some 1 ∧
     (dictGet q2.tasks "t1").map Task.status ≠ some TaskStatus.failed) := by
  simp [TaskQueue.get_next_task, TaskQueue.scanCandidates,
    prioritiesHighToLow, TaskQueue.pending, TaskQueue.setPending,
    TaskQueue.add_task, TaskQueue.fail_task, TaskCoordinator.execute_task,
    dictSet, dictGet, List.find?, TaskQueue.completedIds, Task.can_start,
    selectLoop, setDiscard, setInsert, TaskQueue.calculate_task_score,
    TaskPriority.value, List.foldl]
  norm_num
  exact ⟨⟨_, _, ⟨rfl, rfl⟩, rfl⟩, ⟨_, _, ⟨rfl, rfl⟩, rfl⟩, by decide⟩

/-- C5 amended: a task whose `agent_id` has no registered handler is failed
through the standard `fail_task` path with the handler-not-found message:
the returned result is unsuccessful, and the task is requeued as PENDING
with `retry_count` incremented while budget remains — it becomes terminal
FAILED only on the attempt that exhausts `max_retries`, not immediately. -/
theorem C5_no_handler_amended (registered : List String)
    (outcome : HandlerOutcome) (q : TaskQueue) (task : Task) (t : Task)
    (now : ℚ) (hreg : registered.contains task.agent_id = false)
    (ht : dictGet q.tasks task.id = some t) :
    (TaskCoordinator.execute_task registered outcome q task now).1.success
      = false ∧
    (TaskCoordinator.execute_task registered outcome q task now).2 =
      q.fail_task task.id
        ("No handler registered for agent " ++ task.agent_id) now ∧
    (t.retry_count < t.max_retries →
      dictGet (TaskCoordinator.execute_task registered outcome q task
          now).2.tasks task.id =
        some { t with retry_count := t.retry_count + 1,
                      status := TaskStatus.pending }) ∧
    (¬ t.retry_count < t.max_retries →
      dictGet (TaskCoordinator.execute_task registered outcome q task
          now).2.tasks task.id =
        some { t with status := TaskStatus.failed,
                      completed_at := some now }) := by
  have hexec : TaskCoordinator.execute_task registered outcome q task now =
      (⟨task.id, false,
          some ("No handler registered for agent " ++ task.agent_id)⟩,
        q.fail_task task.id
          ("No handler registered for agent " ++ task.agent_id) now) := by
    unfold TaskCoordinator.execute_task
    rw [hreg]
    simp
  refine ⟨by rw [hexec], by rw [hexec], ?_, ?_⟩
  · intro hlt
    rw [hexec]
    exact fail_task_retry_get q task.id _ now t ht hlt
  · intro hge
    rw [hexec]
    exact fail_task_final_get q task.id _ now t ht hge

/-- Witness for C5 at a concrete queue with an unregistered agent. -/
theorem C5_no_handler_amended_witness :
    (([] : List String).contains "a" = false) ∧
    dictGet (TaskQueue.add_task {}
        { id := "t1", agent_id := "a", max_retries := 1 }).tasks "t1" =
      some { id := "t1", agent_id := "a", max_retries := 1 } ∧
    (TaskCoordinator.execute_task [] (HandlerOutcome.raised "x")
        (TaskQueue.add_task {}
          { id := "t1", agent_id := "a", max_retries := 1 })
        { id := "t1", agent_id := "a", max_retries := 1 } 0).1.success
      = false :=
  ⟨rfl,
    by simp [TaskQueue.add_task, dictSet, dictGet, List.find?,
      TaskQueue.setPending],
    (C5_no_handler_amended [] (HandlerOutcome.raised "x")
      (TaskQueue.add_task {} { id := "t1", agent_id := "a", max_retries := 1 })
      { id := "t1", agent_id := "a", max_retries := 1 }
      { id := "t1", agent_id := "a", max_retries := 1 } 0 rfl
      (by simp [TaskQueue.add_task, dictSet, dictGet, List.find?,
        TaskQueue.setPending])).1⟩

/-! ## Claim C8 — timestamp invariants -/

/-- C8 counterexample: after a retry, re-selection overwrites `started_at`.
The task is selected at time 0 (`started_at = 0`), requeued by `fail_task`,
selected again at time 5 — and the stored `started_at` becomes 5, not the
first-transition value 0 the claim requires. -/
theorem C8_counterexample :
    (let t : Task := { id := "t1", agent_id := "h" }
     let q0 := TaskQueue.add_task {} t
     let r1 := q0.get_next_task 0
     let q2 := r1.2.fail_task "t1" "e" 1
     let r3 := q2.get_next_task 5
     (dictGet r1.2.tasks "t1").map Task.started_at = some (some 0) ∧
     (dictGet q2.tasks "t1").map Task.status = some TaskStatus.pending ∧
     (dictGet q2.tasks "t1").map Task.started_at = some (some 0) ∧
     (dictGet r3.2.tasks "t1").map Task.started_at = some (some 5) ∧
     (dictGet r3.2.tasks "t1").map Task.started_at ≠ some (some 0)) := by
  simp [TaskQueue.get_next_task, TaskQueue.scanCandidates,
    prioritiesHighToLow, TaskQueue.pending, TaskQueue.setPending,
    TaskQueue.add_task, TaskQueue.fail_task, dictSet, dictGet, List.find?,
    TaskQueue.completedIds, Task.can_start, selectLoop, setDiscard,
    setInsert, TaskQueue.calculate_task_score, TaskPriority.value,
    List.foldl]
  norm_num
  simp [TaskQueue.get_next_task, TaskQueue.scanCandidates,
    prioritiesHighToLow, TaskQueue.pending, TaskQueue.setPending,
    dictSet, dictGet, List.find?, TaskQueue.completedIds, Task.can_start,
    selectLoop, setDiscard, setInsert, TaskQueue.calculate_task_score,
    TaskPriority.value, List.foldl]
  norm_num
  exact ⟨⟨_, _, ⟨rfl, rfl⟩, rfl⟩, ⟨_, _, ⟨rfl, rfl⟩, rfl⟩,
    ⟨_, _, ⟨rfl, rfl⟩, rfl⟩, ⟨_, _, ⟨rfl, rfl⟩, rfl⟩⟩

/-- C8 amended: `started_at` is stamped with the current time on *every*
transition to RUNNING — each selection by `get_next_task`, including
re-selection after a retry, overwrites it — while `completed_at` is
assigned exactly by the terminal transitions: `complete_task`
(COMPLETED/FAILED), retry-exhausted `fail_task` (FAILED) and `cancel_task`
(CANCELLED); a retrying `fail_task` touches neither timestamp. -/
theorem C8_timestamps_amended (q : TaskQueue) (now : ℚ) (id : String)
    (t : Task) (res : TaskResult) (err : String) :
    (∀ t', (q.get_next_task now).1 = some t' →
      t'.status = TaskStatus.running ∧ t'.started_at = some now ∧
      ∃ u ∈ q.scanCandidates,
        t' = { u with status := TaskStatus.running,
                      started_at := some now }) ∧
    (dictGet q.tasks id = some t →
      dictGet (q.complete_task id res now).tasks id =
        some { t with
          status := if res.success then TaskStatus.completed
                    else TaskStatus.failed,
          completed_at := some now }) ∧
    (dictGet q.tasks id = some t → t.retry_count < t.max_retries →
      dictGet (q.fail_task id err now).tasks id =
        some { t with retry_count := t.retry_count + 1,
                      status := TaskStatus.pending }) ∧
    (dictGet q.tasks id = some t → ¬ t.retry_count < t.max_retries →
      dictGet (q.fail_task id err now).tasks id =
        some { t with status := TaskStatus.failed,
                      completed_at := some now }) ∧
    (dictGet q.tasks id = some t →
      dictGet (q.cancel_task id now).tasks id =
        some { t with status := TaskStatus.cancelled,
                      completed_at := some now }) := by
  refine ⟨?_, fun ht => complete_task_get q id res now t ht,
    fun ht hlt => fail_task_retry_get q id err now t ht hlt,
    fun ht hge => fail_task_final_get q id err now t ht hge,
    fun ht => cancel_task_get q id now t ht⟩
  intro t' ht'
  rcases selectLoop_result now q.scanCandidates none (-1) with
    ⟨heq, _⟩ | ⟨L₁, u, L₂, hsplit, heq, _, _, _⟩
  · unfold TaskQueue.get_next_task at ht'
    rw [heq] at ht'
    simp at ht'
  · unfold TaskQueue.get_next_task at ht'
    rw [heq] at ht'
    simp only [Option.some.injEq] at ht'
    have hu : u ∈ q.scanCandidates := by
      rw [hsplit]
      exact List.mem_append.mpr (Or.inr (List.mem_cons_self u L₂))
    exact ⟨by rw [← ht'], by rw [← ht'], u, hu, ht'.symm⟩

/-- Witness for C8 at a concrete queue: cancelling stamps `completed_at`
and sets CANCELLED, leaving `started_at` as it was. -/
theorem C8_timestamps_amended_witness :
    dictGet (TaskQueue.add_task {} { id := "t1", agent_id := "h" }).tasks "t1"
      = some { id := "t1", agent_id := "h" } ∧
    dictGet ((TaskQueue.add_task {}
        { id := "t1", agent_id := "h" }).cancel_task "t1" 1).tasks "t1" =
      some { id := "t1", agent_id := "h", status := TaskStatus.cancelled,
             completed_at := some 1 } :=
  ⟨by simp [TaskQueue.add_task, dictSet, dictGet, List.find?,
      TaskQueue.setPending],
    (C8_timestamps_amended
        (TaskQueue.add_task {} { id := "t1", agent_id := "h" }) 1 "t1"
        { id := "t1", agent_id := "h" } ⟨"t1", true, none⟩ "e").2.2.2.2
      (by simp [TaskQueue.add_task, dictSet, dictGet, List.find?,
        TaskQueue.setPending])⟩

end WhiteCross
